import Mathlib

/-!
Shallow embedding of the YouTube-Assistance React client
(`src/Code/frontend/src/App.js`) and proofs about the claims of the
specification.

The embedding models:
* the component state managed by the `useState` hooks (`AppState`),
* browser `localStorage` as an association list (`LocalStorage`),
* the outcome of a `fetch` call (`FetchOutcome`): either the promise chain
  throws (network error, or `response.json()` failure), or it yields a parsed
  JSON body together with `response.ok`,
* the three stateful operations `processVideo`, `sendMessage`, `clearChat`
  as state transformers that also report the list of HTTP requests sent,
* the persistence `useEffect` (`persistEffect`),
* the pure helpers `formatBotMessage` and `getYouTubeVideoId`.

Transient render-only flags of the component (`showApiKey`, `isProcessing`,
`isSending`) are omitted: each operation restores them in its `finally`
block, so they never carry information across the operations the claims
are about.

JSON field values are modelled as `Option String`: `none` stands for a
field that is absent (JavaScript `undefined` / `null`), `some s` for a
string value.
-/

/-- JavaScript truthiness of a string-or-null value: `null`/`undefined`
and the empty string are falsy. -/
def jsTruthy : Option String → Bool
  | none => false
  | some s => !(s == "")

/-- JavaScript `a || b` for a string-or-absent `a` (used for
`data.detail || 'fallback'`): an absent or empty string falls through
to the fallback. -/
def jsOr (a : Option String) (b : String) : String :=
  match a with
  | none => b
  | some s => if s == "" then b else s

/-- The WhiteSpace and LineTerminator code points removed by
JavaScript `String.prototype.trim`. -/
def jsWhitespace (c : Char) : Bool :=
  c.toNat == 9 || c.toNat == 10 || c.toNat == 11 || c.toNat == 12 ||
  c.toNat == 13 || c.toNat == 32 || c.toNat == 160 || c.toNat == 0x1680 ||
  (0x2000 ≤ c.toNat && c.toNat ≤ 0x200A) || c.toNat == 0x2028 ||
  c.toNat == 0x2029 || c.toNat == 0x202F || c.toNat == 0x205F ||
  c.toNat == 0x3000 || c.toNat == 0xFEFF

/-- JavaScript `String.prototype.trim`. -/
def jsTrim (s : String) : String :=
  ⟨((s.data.dropWhile jsWhitespace).reverse.dropWhile jsWhitespace).reverse⟩

/-- One chat message of the component's `chatHistory` state.  The code uses
the role strings `"user"`, `"bot"`, `"error"` and `"info"`.  `content` is
`none` when the JavaScript value is `undefined` (a response body missing
the accessed field). -/
structure Turn where
  role : String
  content : Option String
deriving Repr, DecidableEq

/-- An HTTP request issued by `fetch`: method, URL, and the JSON body as an
ordered list of (field, value) pairs. -/
structure Request where
  method : String
  url : String
  body : List (String × String)
deriving Repr, DecidableEq

/-- A parsed JSON response body together with `response.ok`.  Only the
fields the client ever reads are modelled; `none` means the field is
absent from the body. -/
structure ApiResponse where
  ok : Bool
  session_id : Option String := none
  answer : Option String := none
  detail : Option String := none
  status : Option String := none
deriving Repr, DecidableEq

/-- Outcome of one `fetch`/`response.json()` chain: either some step threw
(with the error's `message`), or it produced a parsed body. -/
inductive FetchOutcome where
  | thrown (message : String)
  | success (response : ApiResponse)
deriving Repr, DecidableEq

/-- The component state held in the `useState` hooks of `App`. -/
structure AppState where
  youtubeUrl : String
  apiKey : String
  question : String
  chatHistory : List Turn
  sessionId : Option String
  videoUrlDisplay : Option String
deriving Repr, DecidableEq

/-- Browser `localStorage`, modelled as an association list of
key/value pairs. -/
abbrev LocalStorage : Type := List (String × String)

/-- `localStorage.setItem`. -/
def lsSet (k v : String) (ls : LocalStorage) : LocalStorage :=
  if (ls.filter (fun p => p.1 == k)).isEmpty then ls ++ [(k, v)]
  else ls.map (fun p => if p.1 == k then (k, v) else p)

/-- `localStorage.removeItem`. -/
def lsRemove (k : String) (ls : LocalStorage) : LocalStorage :=
  ls.filter (fun p => !(p.1 == k))

/-- `localStorage.getItem` (`none` = JavaScript `null`). -/
def lsGet (k : String) (ls : LocalStorage) : Option String :=
  (ls.find? (fun p => p.1 == k)).map Prod.snd

/-- `localStorage.clear()`. -/
def lsClear : LocalStorage := []

/-- Minimal JSON string escaping used by `JSON.stringify`. -/
def jsonEscape (s : String) : String :=
  ⟨s.data.foldr (fun c acc =>
      if c == '"' then '\\' :: '"' :: acc
      else if c == '\\' then '\\' :: '\\' :: acc
      else if c == '\n' then '\\' :: 'n' :: acc
      else if c == '\r' then '\\' :: 'r' :: acc
      else if c == '\t' then '\\' :: 't' :: acc
      else c :: acc) []⟩

/-- `JSON.stringify` of one chat message.  A property whose value is
`undefined` is omitted by `JSON.stringify`. -/
def turnJson (t : Turn) : String :=
  match t.content with
  | some c =>
      "\x7b\"role\":\"" ++ jsonEscape t.role ++ "\",\"content\":\"" ++
        jsonEscape c ++ "\"\x7d"
  | none => "\x7b\"role\":\"" ++ jsonEscape t.role ++ "\"\x7d"

/-- `JSON.stringify(chatHistory)`. -/
def historyJson (h : List Turn) : String :=
  "[" ++ String.intercalate "," (h.map turnJson) ++ "]"

/-- The persistence `useEffect` (App.js lines 35-48): on every change of
`chatHistory`, `sessionId` or `videoUrlDisplay` it writes `chatHistory`
and writes or removes `sessionId` and `videoUrlDisplay`. -/
def persistEffect (s : AppState) (ls : LocalStorage) : LocalStorage :=
  let ls1 := lsSet "chatHistory" (historyJson s.chatHistory) ls
  let ls2 :=
    if jsTruthy s.sessionId then lsSet "sessionId" (s.sessionId.getD "") ls1
    else lsRemove "sessionId" ls1
  if jsTruthy s.videoUrlDisplay then
    lsSet "videoUrlDisplay" (s.videoUrlDisplay.getD "") ls2
  else lsRemove "videoUrlDisplay" ls2

def API_BASE_URL : String := "http://localhost:8000"

/-- The transient notice appended at the start of `processVideo`. -/
def processingNotice : String := "Processing video and initializing chatbot..."

/-- The greeting appended after a successful `processVideo`. -/
def helloNotice : String :=
  "Hello! I have processed the video. Ask me anything about it!"

/-- The transient notice appended while `sendMessage` waits. -/
def thinkingNotice : String := "Bot is thinking..."

/-- The transient notice appended while `clearChat` waits. -/
def clearingNotice : String := "Clearing session on backend..."

/-- The notice appended after a successful backend clear. -/
def clearedNotice : String := "Session successfully cleared on backend."

/-- `processVideo` (App.js lines 50-95): guards on empty `youtubeUrl` /
`apiKey`, appends the processing notice, POSTs
`{youtube_url, api_key}` to `/process_video/`; on an ok response it sets
`sessionId` from the body, shows the video and resets the history to the
greeting (also removing the persisted history); otherwise it filters the
processing notice out and appends an error message. -/
def processVideo (s : AppState) (ls : LocalStorage) (outcome : FetchOutcome) :
    AppState × LocalStorage × List Request :=
  if s.youtubeUrl == "" then (s, ls, [])
  else if s.apiKey == "" then (s, ls, [])
  else
    let req : Request :=
      { method := "POST", url := API_BASE_URL ++ "/process_video/",
        body := [("youtube_url", s.youtubeUrl), ("api_key", s.apiKey)] }
    let s1 : AppState :=
      { s with chatHistory :=
          s.chatHistory ++ [{ role := "info", content := some processingNotice }] }
    let fail (msg : String) : AppState × LocalStorage × List Request :=
      ({ s1 with chatHistory :=
           (s1.chatHistory.filter (fun t => !(t.content == some processingNotice))) ++
             [{ role := "error",
                content := some ("Error processing video: " ++ msg) }] },
       ls, [req])
    match outcome with
    | .thrown msg => fail msg
    | .success r =>
        if r.ok then
          ({ s1 with
               sessionId := r.session_id,
               videoUrlDisplay := some s.youtubeUrl,
               chatHistory := [{ role := "bot", content := some helloNotice }] },
           lsRemove "chatHistory" ls, [req])
        else fail (jsOr r.detail "Failed to process video")

/-- `sendMessage` (App.js lines 133-176): guards on a blank question and a
falsy `sessionId`, appends the user turn, clears the input, appends the
thinking notice, POSTs `{question, session_id}` to `/chat/`; on an ok
response it filters the thinking notice out and appends the body's
`answer` as a `bot` turn, otherwise an `error` turn. -/
def sendMessage (s : AppState) (outcome : FetchOutcome) :
    AppState × List Request :=
  if jsTrim s.question == "" then (s, [])
  else if !(jsTruthy s.sessionId) then (s, [])
  else
    let q := s.question
    let sid := s.sessionId.getD ""
    let req : Request :=
      { method := "POST", url := API_BASE_URL ++ "/chat/",
        body := [("question", q), ("session_id", sid)] }
    let s1 : AppState :=
      { s with
          chatHistory := s.chatHistory ++ [{ role := "user", content := some q }],
          question := "" }
    let s2 : AppState :=
      { s1 with chatHistory :=
          s1.chatHistory ++ [{ role := "info", content := some thinkingNotice }] }
    let dropThinking (h : List Turn) : List Turn :=
      h.filter (fun t => !(t.content == some thinkingNotice))
    match outcome with
    | .thrown msg =>
        ({ s2 with chatHistory :=
             dropThinking s2.chatHistory ++
               [{ role := "error",
                  content := some ("Error during chat: " ++ msg) }] }, [req])
    | .success r =>
        if r.ok then
          ({ s2 with chatHistory :=
               dropThinking s2.chatHistory ++
                 [{ role := "bot", content := r.answer }] }, [req])
        else
          ({ s2 with chatHistory :=
               dropThinking s2.chatHistory ++
                 [{ role := "error",
                    content := some ("Error during chat: " ++
                      jsOr r.detail "Failed to send message") }] }, [req])

/-- `clearChat` (App.js lines 178-220): after the user confirms, it empties
the history and hides the video, then — only if `sessionId` is truthy —
POSTs `{session_id}` to `/clear_session/` and appends a status or error
notice, and finally clears `localStorage` and nulls `sessionId`. -/
def clearChat (s : AppState) (ls : LocalStorage) (confirmClear : Bool)
    (outcome : FetchOutcome) : AppState × LocalStorage × List Request :=
  if !confirmClear then (s, ls, [])
  else
    let s1 : AppState := { s with chatHistory := [], videoUrlDisplay := none }
    if !(jsTruthy s.sessionId) then ({ s1 with sessionId := none }, lsClear, [])
    else
      let sid := s.sessionId.getD ""
      let req : Request :=
        { method := "POST", url := API_BASE_URL ++ "/clear_session/",
          body := [("session_id", sid)] }
      let s2 : AppState :=
        { s1 with chatHistory :=
            s1.chatHistory ++ [{ role := "info", content := some clearingNotice }] }
      let dropClearing (h : List Turn) : List Turn :=
        h.filter (fun t => !(t.content == some clearingNotice))
      let s3 : AppState :=
        match outcome with
        | .thrown msg =>
            { s2 with chatHistory :=
                dropClearing s2.chatHistory ++
                  [{ role := "error",
                     content := some ("Failed to clear backend session: " ++ msg) }] }
        | .success r =>
            if r.ok then
              { s2 with chatHistory :=
                  dropClearing s2.chatHistory ++
                    [{ role := "info", content := some clearedNotice }] }
            else
              { s2 with chatHistory :=
                  dropClearing s2.chatHistory ++
                    [{ role := "error",
                       content := some ("Failed to clear backend session: " ++
                         jsOr r.detail "Failed to clear session on backend") }] }
      ({ s3 with sessionId := none }, lsClear, [req])

/-- Whether a modelled fetch chain failed (threw, or `response.ok` false). -/
def fetchFailed : FetchOutcome → Bool
  | .thrown _ => true
  | .success r => !r.ok

/-- The `error.message` observed by `sendMessage`'s catch block. -/
def chatFailMessage : FetchOutcome → String
  | .thrown m => m
  | .success r => jsOr r.detail "Failed to send message"

/-- The `error.message` observed by `processVideo`'s catch block. -/
def ingestFailMessage : FetchOutcome → String
  | .thrown m => m
  | .success r => jsOr r.detail "Failed to process video"

/-!
## `formatBotMessage` (App.js lines 97-129)

The function is a chain of twelve global regex replacements.  Each
replacement is embedded as a left-to-right scan (`runPass`) driven by a
matcher that attempts the corresponding regex at the current position and,
on a match, yields the replacement text and the remainder of the input
after the match — exactly the semantics of `String.prototype.replace` with
a `/g` regex.  Every matcher consumes at least one character on success,
so the scan's fuel (the input length) never runs out.
-/

/-- What JavaScript regex `.` matches: any char except the four
line terminators. -/
def jsDot (c : Char) : Bool :=
  !(c.toNat == 10 || c.toNat == 13 || c.toNat == 0x2028 || c.toNat == 0x2029)

/-- The backtick character (code point 96). -/
def backtickChar : Char := Char.ofNat 96

/-- Fuel-driven scan: at each position try the matcher; on a match emit the
replacement and continue after the match, otherwise keep the character and
move one position forward. -/
def scanAux (f : List Char → Option (List Char × List Char)) :
    Nat → List Char → List Char
  | _, [] => []
  | 0, l => l
  | fuel + 1, c :: cs =>
      match f (c :: cs) with
      | some (rep, rest) => rep ++ scanAux f fuel rest
      | none => c :: scanAux f fuel cs

/-- One global replacement pass over the input. -/
def runPass (f : List Char → Option (List Char × List Char))
    (l : List Char) : List Char :=
  scanAux f l.length l

/-- Lazy `(.*?)` followed by a single given character: the shortest run of
`.`-matchable characters ending right before `stop`. -/
def lazyUptoChar (stop : Char) : List Char → Option (List Char × List Char)
  | [] => none
  | c :: cs =>
      if c = stop then some ([], cs)
      else if jsDot c then
        (lazyUptoChar stop cs).map (fun p => (c :: p.1, p.2))
      else none

/-- Lazy `(.*?)` followed by `**`. -/
def lazyUptoTwoStars : List Char → Option (List Char × List Char)
  | '*' :: '*' :: cs => some ([], cs)
  | c :: cs =>
      if jsDot c then (lazyUptoTwoStars cs).map (fun p => (c :: p.1, p.2))
      else none
  | [] => none

/-- Split at the first occurrence of `c` (used for the greedy negated
classes `[^\x5d]+` and `[^)]+`, which can only match up to the first
excluded character). -/
def breakAtChar (c : Char) : List Char → Option (List Char × List Char)
  | [] => none
  | x :: xs =>
      if x = c then some ([], xs)
      else (breakAtChar c xs).map (fun p => (x :: p.1, p.2))

/-- Matcher for `\n# (.*)` replaced by the `<h1>` tag. -/
def mH1 : List Char → Option (List Char × List Char)
  | '\n' :: '#' :: ' ' :: cs =>
      some ("<h1 class=\"text-2xl font-bold mt-4 mb-2\">".data ++
              cs.takeWhile jsDot ++ "</h1>".data,
            cs.dropWhile jsDot)
  | _ => none

/-- Matcher for `\n## (.*)` replaced by the `<h2>` tag. -/
def mH2 : List Char → Option (List Char × List Char)
  | '\n' :: '#' :: '#' :: ' ' :: cs =>
      some ("<h2 class=\"text-xl font-semibold mt-4 mb-2\">".data ++
              cs.takeWhile jsDot ++ "</h2>".data,
            cs.dropWhile jsDot)
  | _ => none

/-- Matcher for `\n### (.*)` replaced by the `<h3>` tag. -/
def mH3 : List Char → Option (List Char × List Char)
  | '\n' :: '#' :: '#' :: '#' :: ' ' :: cs =>
      some ("<h3 class=\"text-lg font-semibold mt-3 mb-2\">".data ++
              cs.takeWhile jsDot ++ "</h3>".data,
            cs.dropWhile jsDot)
  | _ => none

/-- Matcher for `\n(\d+)\. ` replaced by `<br>$1. `. -/
def mNumbered : List Char → Option (List Char × List Char)
  | '\n' :: cs =>
      let ds := cs.takeWhile Char.isDigit
      if ds.isEmpty then none
      else
        match cs.dropWhile Char.isDigit with
        | '.' :: ' ' :: rest => some ("<br>".data ++ ds ++ ('.' :: ' ' :: []), rest)
        | _ => none
  | _ => none

/-- Matcher for `\n\* ` replaced by `<br>• `. -/
def mStarBullet : List Char → Option (List Char × List Char)
  | '\n' :: '*' :: ' ' :: cs => some ("<br>• ".data, cs)
  | _ => none

/-- Matcher for `\n- ` replaced by `<br>• `. -/
def mDashBullet : List Char → Option (List Char × List Char)
  | '\n' :: '-' :: ' ' :: cs => some ("<br>• ".data, cs)
  | _ => none

/-- Matcher for `\*\*(.*?)\*\*` replaced by `<strong>$1</strong>`. -/
def mBold : List Char → Option (List Char × List Char)
  | '*' :: '*' :: cs =>
      (lazyUptoTwoStars cs).map
        (fun p => ("<strong>".data ++ p.1 ++ "</strong>".data, p.2))
  | _ => none

/-- Matcher for `\*(.*?)\*` replaced by `<em>$1</em>`. -/
def mItalic : List Char → Option (List Char × List Char)
  | '*' :: cs =>
      (lazyUptoChar '*' cs).map
        (fun p => ("<em>".data ++ p.1 ++ "</em>".data, p.2))
  | _ => none

/-- Matcher for the inline-code regex (backtick, lazy `.*?`, backtick)
replaced by the `<code>` tag. -/
def mCode : List Char → Option (List Char × List Char)
  | c :: cs =>
      if c = backtickChar then
        (lazyUptoChar backtickChar cs).map
          (fun p =>
            ("<code class=\"bg-gray-100 px-1 py-0.5 rounded text-sm font-mono\">".data ++
               p.1 ++ "</code>".data, p.2))
      else none
  | [] => none

/-- Matcher for the link regex `\[([^\x5d]+)\]\(([^)]+)\)` replaced by the
anchor tag with `$2` as `href` and `$1` as text. -/
def mLink : List Char → Option (List Char × List Char)
  | '[' :: cs =>
      match breakAtChar ']' cs with
      | none => none
      | some (text, r1) =>
          if text.isEmpty then none
          else
            match r1 with
            | '(' :: r2 =>
                match breakAtChar ')' r2 with
                | none => none
                | some (href, r3) =>
                    if href.isEmpty then none
                    else
                      some ("<a href=\"".data ++ href ++
                              ("\" target=\"_blank\" rel=\"noopener noreferrer\" " ++
                               "class=\"text-blue-600 hover:text-blue-800 underline\">").data ++
                              text ++ "</a>".data, r3)
            | _ => none
  | _ => none

/-- Matcher for `\n\n` replaced by `<br><br>`. -/
def mDoubleNewline : List Char → Option (List Char × List Char)
  | '\n' :: '\n' :: cs => some ("<br><br>".data, cs)
  | _ => none

/-- Matcher for `\n` replaced by `<br>`. -/
def mNewline : List Char → Option (List Char × List Char)
  | '\n' :: cs => some ("<br>".data, cs)
  | _ => none

/-- `formatBotMessage` (App.js lines 97-129): the twelve replacement
passes, applied in source order. -/
def formatBotMessage (content : String) : String :=
  ⟨runPass mNewline (runPass mDoubleNewline (runPass mLink (runPass mCode
      (runPass mItalic (runPass mBold (runPass mDashBullet (runPass mStarBullet
        (runPass mNumbered (runPass mH3 (runPass mH2
          (runPass mH1 content.data)))))))))))⟩

/-- Whether the link regex matches anywhere in the text (the scan of the
link pass would fire at some position). -/
def containsLink : List Char → Bool
  | [] => false
  | c :: cs => (mLink (c :: cs)).isSome || containsLink cs

/-!
## `getYouTubeVideoId` (App.js lines 222-237)

The function relies on the browser's `URL` constructor,
`URL.hostname` / `URL.pathname` / `URL.searchParams`, and
`String.prototype.includes` / `split`.  These browser built-ins are
external collaborators of the repository and are modelled here for the
absolute-URL forms the function distinguishes: a mandatory scheme, an
authority for the special schemes (extra slashes skipped, backslashes
treated as slashes, userinfo and port stripped, host lowercased, an empty
host rejected), the raw path up to the query, and the query string parsed
on demand by `searchParamsGet` with `+`/percent decoding.  A string the
`URL` constructor would reject (no scheme, or a special scheme with no
host) parses to `none`, which is what the `try`/`catch` of the source
turns into a `null` result.  IDNA host mapping, dot-segment path
normalization and multi-byte percent sequences are outside the modelled
fragment; none of them affect which branch of the source function runs
for the inputs the claims quantify over.
-/

/-- `String.prototype.includes` on character lists. -/
def listIncludes (pat : List Char) : List Char → Bool
  | [] => pat.isEmpty
  | c :: cs => pat.isPrefixOf (c :: cs) || listIncludes pat cs

/-- `String.prototype.includes`. -/
def strIncludes (s pat : String) : Bool := listIncludes pat.data s.data

/-- Split a list at the first occurrence of `sep` (as a contiguous
sublist): `some (before, after)` or `none` when `sep` is empty or does not
occur. -/
def splitFirst (sep : List Char) : List Char → Option (List Char × List Char)
  | [] => none
  | c :: cs =>
      if !sep.isEmpty && sep.isPrefixOf (c :: cs) then
        some ([], (c :: cs).drop sep.length)
      else (splitFirst sep cs).map (fun p => (c :: p.1, p.2))

/-- Fuel-driven worker for `String.prototype.split` with a non-empty
separator; every step consumes at least the separator, so fuel = input
length suffices. -/
def jsSplitAux (sep : List Char) : Nat → List Char → List (List Char)
  | 0, l => [l]
  | fuel + 1, l =>
      match splitFirst sep l with
      | some (pre, post) => pre :: jsSplitAux sep fuel post
      | none => [l]

/-- `String.prototype.split` with a non-empty string separator. -/
def jsSplit (s sep : String) : List String :=
  (jsSplitAux sep.data s.data.length s.data).map (fun l => ⟨l⟩)

/-- Value of a hex digit. -/
def hexVal (c : Char) : Option Nat :=
  if '0' ≤ c ∧ c ≤ '9' then some (c.toNat - '0'.toNat)
  else if 'a' ≤ c ∧ c ≤ 'f' then some (c.toNat - 'a'.toNat + 10)
  else if 'A' ≤ c ∧ c ≤ 'F' then some (c.toNat - 'A'.toNat + 10)
  else none

/-- `URLSearchParams` decoding of one component: `+` becomes a space and
`%XX` (two hex digits) becomes the corresponding code point;
malformed escapes are kept as-is. -/
def decodeComponent : List Char → List Char
  | [] => []
  | '%' :: a :: b :: rest =>
      match hexVal a, hexVal b with
      | some x, some y => Char.ofNat (16 * x + y) :: decodeComponent rest
      | _, _ => '%' :: decodeComponent (a :: b :: rest)
  | '+' :: rest => ' ' :: decodeComponent rest
  | c :: rest => c :: decodeComponent rest

/-- `new URL(url).searchParams.get(key)`: split the raw query on `&`,
drop empty segments, split each segment at its first `=`, decode names
and values, and return the value of the first pair whose name matches. -/
def searchParamsGet (query key : String) : Option String :=
  let pairs := (jsSplitAux ['&'] query.data.length query.data).filter
    (fun seg => !seg.isEmpty)
  let decoded := pairs.map (fun seg =>
    let name := seg.takeWhile (fun c => !(c == '='))
    let value := (seg.dropWhile (fun c => !(c == '='))).drop 1
    ((⟨decodeComponent name⟩ : String), (⟨decodeComponent value⟩ : String)))
  (decoded.find? (fun p => p.1 == key)).map Prod.snd

/-- The components of a parsed URL that `getYouTubeVideoId` reads.
`search` is the raw query string (without the `?`). -/
structure UrlParts where
  hostname : String
  pathname : String
  search : String
deriving Repr, DecidableEq

/-- Schemes with special authority parsing in the URL standard. -/
def specialScheme (s : String) : Bool :=
  s == "http" || s == "https" || s == "ws" || s == "wss" || s == "ftp" ||
  s == "file"

def isSchemeChar (c : Char) : Bool :=
  c.isAlphanum || c == '+' || c == '-' || c == '.'

/-- Strip the whitespace the URL constructor removes: leading and trailing
C0-control-or-space characters, and every interior tab, LF and CR. -/
def urlStrip (l : List Char) : List Char :=
  let noTabNl := l.filter (fun c => !(c.toNat == 9 || c.toNat == 10 || c.toNat == 13))
  ((noTabNl.dropWhile (fun c => c.toNat ≤ 32)).reverse.dropWhile
      (fun c => c.toNat ≤ 32)).reverse

/-- Parse the authority-plus-rest part that follows the slashes of a
special-scheme URL, producing the URL components, or `none` when the host
is empty (which makes the constructor throw for every special scheme but
`file`). -/
def parseAuthority (scheme : String) (l : List Char) : Option UrlParts :=
  let isAuthEnd := fun (c : Char) => c == '/' || c == '\\' || c == '?' || c == '#'
  let auth := l.takeWhile (fun c => !isAuthEnd c)
  let rest := l.dropWhile (fun c => !isAuthEnd c)
  let hostPort := (auth.reverse.takeWhile (fun c => !(c == '@'))).reverse
  let host :=
    if hostPort.head? == some '[' then
      match splitFirst [']'] hostPort with
      | some (pre, _) => pre ++ [']']
      | none => hostPort
    else hostPort.takeWhile (fun c => !(c == ':'))
  if host.isEmpty && specialScheme scheme && scheme != "file" then none
  else
    let rawPath := rest.takeWhile (fun c => !(c == '?' || c == '#'))
    let path := rawPath.map (fun c => if c == '\\' then '/' else c)
    let afterPath := rest.dropWhile (fun c => !(c == '?' || c == '#'))
    let query :=
      match afterPath with
      | '?' :: qs => qs.takeWhile (fun c => !(c == '#'))
      | _ => []
    some { hostname := ⟨host.map Char.toLower⟩,
           pathname := if path.isEmpty then "/" else ⟨path⟩,
           search := ⟨query⟩ }

/-- Model of the browser's `new URL(url)`: `none` when the constructor
throws. -/
def parseURL (url : String) : Option UrlParts :=
  let l := urlStrip url.data
  match l with
  | [] => none
  | c :: _ =>
      if !c.isAlpha then none
      else
        let run := l.takeWhile isSchemeChar
        match l.dropWhile isSchemeChar with
        | ':' :: r =>
            let scheme : String := ⟨run.map Char.toLower⟩
            if specialScheme scheme then
              parseAuthority scheme (r.dropWhile (fun c => c == '/' || c == '\\'))
            else
              match r with
              | '/' :: '/' :: r2 => parseAuthority scheme r2
              | _ =>
                  let path := r.takeWhile (fun c => !(c == '?' || c == '#'))
                  let afterPath := r.dropWhile (fun c => !(c == '?' || c == '#'))
                  let query :=
                    match afterPath with
                    | '?' :: qs => qs.takeWhile (fun c => !(c == '#'))
                    | _ => []
                  some { hostname := "", pathname := ⟨path⟩, search := ⟨query⟩ }
        | _ => none

/-- `getYouTubeVideoId` (App.js lines 222-237).  The `[1]` index of the
source is total here via `getD`: when `'/shorts/'` occurs in the path the
split has at least two parts. -/
def getYouTubeVideoId (url : String) : Option String :=
  match parseURL url with
  | none => none
  | some u =>
      if u.hostname == "www.youtube.com" || u.hostname == "youtube.com" then
        if strIncludes u.pathname "/watch" then searchParamsGet u.search "v"
        else if strIncludes u.pathname "/shorts/" then
          some ((jsSplit u.pathname "/shorts/").getD 1 "")
        else none
      else none

/-!
## Helper lemmas
-/

/-- A filter that drops turns with a given content is the identity on a
history in which no turn has that content. -/
lemma filter_content_ne_eq_self {h : List Turn} {n : String}
    (hh : ∀ t ∈ h, t.content ≠ some n) :
    h.filter (fun t => !(t.content == some n)) = h := by
  rw [List.filter_eq_self]
  intro t ht
  simpa using hh t ht

/-- `sendMessage` on an ok response, written with the raw filter. -/
lemma sendMessage_ok_raw (s : AppState) (r : ApiResponse)
    (hq : jsTrim s.question ≠ "") (hsid : jsTruthy s.sessionId = true)
    (hok : r.ok = true) :
    sendMessage s (.success r) =
      ({ s with
           question := "",
           chatHistory :=
             ((s.chatHistory ++
                 ([{ role := "user", content := some s.question },
                   { role := "info", content := some thinkingNotice }] : List Turn)).filter
                 (fun t => !(t.content == some thinkingNotice))) ++
               [{ role := "bot", content := r.answer }] },
       [{ method := "POST", url := API_BASE_URL ++ "/chat/",
          body := [("question", s.question), ("session_id", s.sessionId.getD "")] }]) := by
  simp [sendMessage, hq, hsid, hok]

/-- `sendMessage` on a failed call, written with the raw filter. -/
lemma sendMessage_fail_raw (s : AppState) (outcome : FetchOutcome)
    (hq : jsTrim s.question ≠ "") (hsid : jsTruthy s.sessionId = true)
    (hfail : fetchFailed outcome = true) :
    sendMessage s outcome =
      ({ s with
           question := "",
           chatHistory :=
             ((s.chatHistory ++
                 ([{ role := "user", content := some s.question },
                   { role := "info", content := some thinkingNotice }] : List Turn)).filter
                 (fun t => !(t.content == some thinkingNotice))) ++
               [{ role := "error",
                  content := some ("Error during chat: " ++ chatFailMessage outcome) }] },
       [{ method := "POST", url := API_BASE_URL ++ "/chat/",
          body := [("question", s.question), ("session_id", s.sessionId.getD "")] }]) := by
  cases outcome with
  | thrown m =>
      simp [sendMessage, chatFailMessage, hq, hsid]
  | success r =>
      have hr : r.ok = false := by simpa [fetchFailed] using hfail
      simp [sendMessage, chatFailMessage, hq, hsid, hr]

/-- `processVideo` on an ok response. -/
lemma processVideo_ok (s : AppState) (ls : LocalStorage) (r : ApiResponse)
    (hu : s.youtubeUrl ≠ "") (hk : s.apiKey ≠ "") (hok : r.ok = true) :
    processVideo s ls (.success r) =
      ({ s with
           sessionId := r.session_id,
           videoUrlDisplay := some s.youtubeUrl,
           chatHistory := [{ role := "bot", content := some helloNotice }] },
       lsRemove "chatHistory" ls,
       [{ method := "POST", url := API_BASE_URL ++ "/process_video/",
          body := [("youtube_url", s.youtubeUrl), ("api_key", s.apiKey)] }]) := by
  simp [processVideo, hu, hk, hok]

/-- `processVideo` on a failed call, written with the raw filter. -/
lemma processVideo_fail (s : AppState) (ls : LocalStorage) (outcome : FetchOutcome)
    (hu : s.youtubeUrl ≠ "") (hk : s.apiKey ≠ "") (hfail : fetchFailed outcome = true) :
    processVideo s ls outcome =
      ({ s with chatHistory :=
           (s.chatHistory.filter (fun t => !(t.content == some processingNotice))) ++
             [{ role := "error",
                content := some ("Error processing video: " ++ ingestFailMessage outcome) }] },
       ls,
       [{ method := "POST", url := API_BASE_URL ++ "/process_video/",
          body := [("youtube_url", s.youtubeUrl), ("api_key", s.apiKey)] }]) := by
  cases outcome with
  | thrown m =>
      simp [processVideo, ingestFailMessage, hu, hk, List.filter_append,
        processingNotice]
  | success r =>
      have hr : r.ok = false := by simpa [fetchFailed] using hfail
      simp [processVideo, ingestFailMessage, hu, hk, hr, List.filter_append,
        processingNotice]

/-- `sendMessage` on an ok response, when neither the question nor any
prior turn collides with the transient thinking notice. -/
lemma sendMessage_ok_clean (s : AppState) (r : ApiResponse)
    (hq : jsTrim s.question ≠ "") (hsid : jsTruthy s.sessionId = true)
    (hok : r.ok = true) (hqn : s.question ≠ thinkingNotice)
    (hh : ∀ t ∈ s.chatHistory, t.content ≠ some thinkingNotice) :
    (sendMessage s (.success r)).1.chatHistory =
      s.chatHistory ++ [{ role := "user", content := some s.question },
                        { role := "bot", content := r.answer }] := by
  rw [sendMessage_ok_raw s r hq hsid hok]
  simp [List.filter_append, filter_content_ne_eq_self hh, hqn]

/-- `sendMessage` on a failed call, when neither the question nor any
prior turn collides with the transient thinking notice. -/
lemma sendMessage_fail_clean (s : AppState) (outcome : FetchOutcome)
    (hq : jsTrim s.question ≠ "") (hsid : jsTruthy s.sessionId = true)
    (hfail : fetchFailed outcome = true) (hqn : s.question ≠ thinkingNotice)
    (hh : ∀ t ∈ s.chatHistory, t.content ≠ some thinkingNotice) :
    (sendMessage s outcome).1.chatHistory =
      s.chatHistory ++
        [{ role := "user", content := some s.question },
         { role := "error",
           content := some ("Error during chat: " ++ chatFailMessage outcome) }] := by
  rw [sendMessage_fail_raw s outcome hq hsid hfail]
  simp [List.filter_append, filter_content_ne_eq_self hh, hqn]

/-- `sendMessage` on an ok response, full result, clean-history form. -/
lemma sendMessage_ok_pair (s : AppState) (r : ApiResponse)
    (hq : jsTrim s.question ≠ "") (hsid : jsTruthy s.sessionId = true)
    (hok : r.ok = true) (hqn : s.question ≠ thinkingNotice)
    (hh : ∀ t ∈ s.chatHistory, t.content ≠ some thinkingNotice) :
    sendMessage s (.success r) =
      ({ s with
           question := "",
           chatHistory :=
             s.chatHistory ++ [{ role := "user", content := some s.question },
                               { role := "bot", content := r.answer }] },
       [{ method := "POST", url := API_BASE_URL ++ "/chat/",
          body := [("question", s.question), ("session_id", s.sessionId.getD "")] }]) := by
  rw [sendMessage_ok_raw s r hq hsid hok]
  simp [List.filter_append, filter_content_ne_eq_self hh, hqn]

/-- C1: with a non-empty `youtubeUrl` and `apiKey`, `processVideo` sends
exactly one POST to `{API_BASE_URL}/process_video/` whose body has exactly
the fields `youtube_url` (the entered URL) and `api_key` (the entered
key), and on an ok response sets `sessionId` to the body's `session_id`. -/
theorem claim1_processVideo_request_and_session
    (s : AppState) (ls : LocalStorage) (outcome : FetchOutcome)
    (hu : s.youtubeUrl ≠ "") (hk : s.apiKey ≠ "") :
    (processVideo s ls outcome).2.2 =
      [{ method := "POST", url := API_BASE_URL ++ "/process_video/",
         body := [("youtube_url", s.youtubeUrl), ("api_key", s.apiKey)] }] ∧
    (∀ r : ApiResponse, outcome = .success r → r.ok = true →
      (processVideo s ls outcome).1.sessionId = r.session_id) := by
  constructor
  · cases outcome with
    | thrown m => rw [processVideo_fail s ls (FetchOutcome.thrown m) hu hk rfl]
    | success r =>
        by_cases hr : r.ok
        · rw [processVideo_ok s ls r hu hk hr]
        · rw [processVideo_fail s ls _ hu hk (by simp [fetchFailed, hr])]
  · rintro r rfl hok
    rw [processVideo_ok s ls r hu hk hok]

/-- C1 witness: a concrete ingest whose ok response carries
`session_id = "s1"` ends with `sessionId = some "s1"`. -/
theorem claim1_witness :
    (processVideo
        { youtubeUrl := "https://www.youtube.com/watch?v=abc", apiKey := "key1",
          question := "", chatHistory := [], sessionId := none,
          videoUrlDisplay := none } []
        (FetchOutcome.success { ok := true, session_id := some "s1" })).1.sessionId =
      some "s1" :=
  (claim1_processVideo_request_and_session _ [] _ (by decide) (by decide)).2
    _ rfl rfl

/-- C2 counterexample: `sessionId = some ""` is non-null and the question
is non-blank, yet `sendMessage` sends no request at all, because the
source guard `if (!sessionId)` tests JavaScript truthiness, not
null-ness. -/
theorem claim2_counterexample :
    (sendMessage
        { youtubeUrl := "", apiKey := "", question := "hi", chatHistory := [],
          sessionId := some "", videoUrlDisplay := none }
        (FetchOutcome.success { ok := true, answer := some "ans" })).2 = [] ∧
    (some "" : Option String) ≠ none := by decide

/-- C2 (amended): with a non-blank question and a truthy (non-null,
non-empty) `sessionId`, `sendMessage` sends exactly one POST to
`{API_BASE_URL}/chat/` whose body has exactly the fields `question` and
`session_id`, and on an ok response the last history entry is a `bot`
turn whose content is the body's `answer`. -/
theorem claim2_sendMessage_request_and_answer
    (s : AppState) (outcome : FetchOutcome)
    (hq : jsTrim s.question ≠ "") (hsid : jsTruthy s.sessionId = true) :
    (sendMessage s outcome).2 =
      [{ method := "POST", url := API_BASE_URL ++ "/chat/",
         body := [("question", s.question), ("session_id", s.sessionId.getD "")] }] ∧
    (∀ r : ApiResponse, outcome = .success r → r.ok = true →
      ((sendMessage s outcome).1.chatHistory).getLast? =
        some { role := "bot", content := r.answer }) := by
  constructor
  · cases outcome with
    | thrown m => rw [sendMessage_fail_raw s (FetchOutcome.thrown m) hq hsid rfl]
    | success r =>
        by_cases hr : r.ok
        · rw [sendMessage_ok_raw s r hq hsid hr]
        · rw [sendMessage_fail_raw s _ hq hsid (by simp [fetchFailed, hr])]
  · rintro r rfl hok
    rw [sendMessage_ok_raw s r hq hsid hok]
    simp

/-- C2 witness: a concrete chat call sends exactly the
`{question, session_id}` request. -/
theorem claim2_witness :
    (sendMessage
        { youtubeUrl := "", apiKey := "", question := "hello?", chatHistory := [],
          sessionId := some "sess", videoUrlDisplay := none }
        (FetchOutcome.success { ok := true, answer := some "fine" })).2 =
      [{ method := "POST", url := API_BASE_URL ++ "/chat/",
         body := [("question", "hello?"), ("session_id", "sess")] }] :=
  (claim2_sendMessage_request_and_answer _ _ (by decide) (by decide)).1

/-- C3 counterexample: when the question is the literal transient notice
`"Bot is thinking..."`, a successful exchange ends with only the bot turn
in the history — the user turn was swept away by the notice filter, so it
is not true that both appended turns are present on completion. -/
theorem claim3_counterexample :
    (sendMessage
        { youtubeUrl := "", apiKey := "", question := "Bot is thinking...",
          chatHistory := [], sessionId := some "sess", videoUrlDisplay := none }
        (FetchOutcome.success { ok := true, answer := some "ans" })).1.chatHistory =
      [{ role := "bot", content := some "ans" }] := by decide

/-- C3 (amended): on a successful exchange — provided the question is not
the literal `"Bot is thinking..."` and no prior message has that content —
exactly two turns are appended: the user turn (the question) then the
`bot` turn (the answer), both present on completion. -/
theorem claim3_user_then_bot_appended
    (s : AppState) (r : ApiResponse)
    (hq : jsTrim s.question ≠ "") (hsid : jsTruthy s.sessionId = true)
    (hok : r.ok = true) (hqn : s.question ≠ thinkingNotice)
    (hh : ∀ t ∈ s.chatHistory, t.content ≠ some thinkingNotice) :
    (sendMessage s (.success r)).1.chatHistory =
      s.chatHistory ++ [{ role := "user", content := some s.question },
                        { role := "bot", content := r.answer }] :=
  sendMessage_ok_clean s r hq hsid hok hqn hh

/-- C3 witness: a concrete successful exchange appends the user turn and
the bot turn to the existing greeting. -/
theorem claim3_witness :
    (sendMessage
        { youtubeUrl := "", apiKey := "", question := "What is it about?",
          chatHistory := [{ role := "bot", content := some helloNotice }],
          sessionId := some "sess", videoUrlDisplay := some "v" }
        (FetchOutcome.success { ok := true, answer := some "ans" })).1.chatHistory =
      [{ role := "bot", content := some helloNotice },
       { role := "user", content := some "What is it about?" },
       { role := "bot", content := some "ans" }] :=
  claim3_user_then_bot_appended _ _ (by decide) (by decide) rfl (by decide)
    (by decide)

/-- C4 counterexample: after a failed chat call the history is not left
with only the previously successful turns — the user turn stays and an
error turn is appended. -/
theorem claim4_counterexample :
    (sendMessage
        { youtubeUrl := "", apiKey := "", question := "why?", chatHistory := [],
          sessionId := some "sess", videoUrlDisplay := none }
        (FetchOutcome.thrown "network down")).1.chatHistory =
      [{ role := "user", content := some "why?" },
       { role := "error", content := some "Error during chat: network down" }] := by
  decide

/-- C4 (amended): when the chat call fails — provided the question is not
the literal `"Bot is thinking..."` and no prior message has that content —
the user turn (appended before the call) remains and an `error` turn is
appended, and no `bot` turn is appended. -/
theorem claim4_failure_keeps_user_adds_error
    (s : AppState) (outcome : FetchOutcome)
    (hq : jsTrim s.question ≠ "") (hsid : jsTruthy s.sessionId = true)
    (hfail : fetchFailed outcome = true) (hqn : s.question ≠ thinkingNotice)
    (hh : ∀ t ∈ s.chatHistory, t.content ≠ some thinkingNotice) :
    (sendMessage s outcome).1.chatHistory =
      s.chatHistory ++
        [{ role := "user", content := some s.question },
         { role := "error",
           content := some ("Error during chat: " ++ chatFailMessage outcome) }] ∧
    ((sendMessage s outcome).1.chatHistory).filter (fun t => t.role == "bot") =
      s.chatHistory.filter (fun t => t.role == "bot") := by
  have h := sendMessage_fail_clean s outcome hq hsid hfail hqn hh
  refine ⟨h, ?_⟩
  rw [h, List.filter_append]
  simp

/-- C4 witness: a concrete failed chat keeps the user turn and appends an
error turn after the prior bot turn. -/
theorem claim4_witness :
    (sendMessage
        { youtubeUrl := "", apiKey := "", question := "why?",
          chatHistory := [{ role := "bot", content := some "earlier" }],
          sessionId := some "sess", videoUrlDisplay := none }
        (FetchOutcome.thrown "oops")).1.chatHistory =
      [{ role := "bot", content := some "earlier" },
       { role := "user", content := some "why?" },
       { role := "error",
         content := some ("Error during chat: " ++
           chatFailMessage (FetchOutcome.thrown "oops")) }] :=
  (claim4_failure_keeps_user_adds_error _ (FetchOutcome.thrown "oops")
    (by decide) (by decide) rfl (by decide) (by decide)).1

/-- The spec's concrete scenario: a fresh client processes a video
successfully and then completes two successful chat exchanges
(questions `q1`, `q2`, answers `a1`, `a2`); the result is the final
component state. -/
def twoChatScenario (u k sid q1 a1 q2 a2 : String) : AppState :=
  let s0 : AppState :=
    { youtubeUrl := u, apiKey := k, question := "", chatHistory := [],
      sessionId := none, videoUrlDisplay := none }
  let p := processVideo s0 [] (.success { ok := true, session_id := some sid })
  let c1 := sendMessage { p.1 with question := q1 }
    (.success { ok := true, answer := some a1 })
  (sendMessage { c1.1 with question := q2 }
    (.success { ok := true, answer := some a2 })).1

/-- C5 counterexample: after a successful ingest and two successful
exchanges the history holds five turns (the greeting bot turn plus
2 user and 2 bot turns), not four. -/
theorem claim5_counterexample :
    (twoChatScenario "https://www.youtube.com/watch?v=xyz" "key" "sess"
        "q1" "a1" "q2" "a2").chatHistory =
      [{ role := "bot", content := some helloNotice },
       { role := "user", content := some "q1" },
       { role := "bot", content := some "a1" },
       { role := "user", content := some "q2" },
       { role := "bot", content := some "a2" }] ∧
    (twoChatScenario "https://www.youtube.com/watch?v=xyz" "key" "sess"
        "q1" "a1" "q2" "a2").chatHistory.length ≠ 4 := by decide

/-- C5 (amended): after a successful ingest and two successful chat
exchanges — with non-degenerate inputs (non-empty URL, key and session
id, non-blank questions, and no question or first answer equal to the
transient `"Bot is thinking..."` notice) — the history contains exactly
five turns in chronological order: the greeting bot turn, then user/bot
turns of the first exchange, then user/bot turns of the second. -/
theorem claim5_history_after_two_chats
    (u k sid q1 a1 q2 a2 : String)
    (hu : u ≠ "") (hk : k ≠ "") (hsid : sid ≠ "")
    (hq1 : jsTrim q1 ≠ "") (hq2 : jsTrim q2 ≠ "")
    (hq1n : q1 ≠ thinkingNotice) (hq2n : q2 ≠ thinkingNotice)
    (ha1n : a1 ≠ thinkingNotice) :
    (twoChatScenario u k sid q1 a1 q2 a2).chatHistory =
      [{ role := "bot", content := some helloNotice },
       { role := "user", content := some q1 },
       { role := "bot", content := some a1 },
       { role := "user", content := some q2 },
       { role := "bot", content := some a2 }] := by
  have hsid' : jsTruthy (some sid) = true := by simp [jsTruthy, hsid]
  have h1 := processVideo_ok
    { youtubeUrl := u, apiKey := k, question := "", chatHistory := [],
      sessionId := none, videoUrlDisplay := none } []
    { ok := true, session_id := some sid } hu hk rfl
  have h2 := sendMessage_ok_pair
    { youtubeUrl := u, apiKey := k, question := q1,
      chatHistory := [{ role := "bot", content := some helloNotice }],
      sessionId := some sid, videoUrlDisplay := some u }
    { ok := true, answer := some a1 } hq1 hsid' rfl hq1n
    (by intro t ht
        simp only [List.mem_cons, List.not_mem_nil, or_false] at ht
        subst ht
        decide)
  have h3 := sendMessage_ok_pair
    { youtubeUrl := u, apiKey := k, question := q2,
      chatHistory := [{ role := "bot", content := some helloNotice },
                      { role := "user", content := some q1 },
                      { role := "bot", content := some a1 }],
      sessionId := some sid, videoUrlDisplay := some u }
    { ok := true, answer := some a2 } hq2 hsid' rfl hq2n ?hclean
  case hclean =>
    intro t ht
    simp only [List.mem_cons, List.not_mem_nil, or_false] at ht
    rcases ht with rfl | rfl | rfl
    · decide
    · simp [hq1n]
    · simp [ha1n]
  simp [twoChatScenario, h1, h2, h3]

/-- C5 witness: the amended history shape at concrete inputs. -/
theorem claim5_witness :
    (twoChatScenario "https://www.youtube.com/watch?v=abc" "k1" "sess1"
        "first?" "ans1" "second?" "ans2").chatHistory =
      [{ role := "bot", content := some helloNotice },
       { role := "user", content := some "first?" },
       { role := "bot", content := some "ans1" },
       { role := "user", content := some "second?" },
       { role := "bot", content := some "ans2" }] :=
  claim5_history_after_two_chats _ _ _ _ _ _ _ (by decide) (by decide)
    (by decide) (by decide) (by decide) (by decide) (by decide) (by decide)

/-- C6 counterexample: a failed ingest does more than append an error
message — a prior user turn whose content happens to equal the transient
processing notice is removed by the cleanup filter, so the final history
is not the prior history plus one appended error. -/
theorem claim6_counterexample :
    (processVideo
        { youtubeUrl := "u", apiKey := "k", question := "",
          chatHistory := [{ role := "user", content := some processingNotice }],
          sessionId := some "old", videoUrlDisplay := some "v" } []
        (FetchOutcome.thrown "boom")).1.chatHistory =
      [{ role := "error", content := some "Error processing video: boom" }] ∧
    (processVideo
        { youtubeUrl := "u", apiKey := "k", question := "",
          chatHistory := [{ role := "user", content := some processingNotice }],
          sessionId := some "old", videoUrlDisplay := some "v" } []
        (FetchOutcome.thrown "boom")).1.chatHistory.length ≠ 2 := by decide

/-- C6 (amended): when the ingest fails, `sessionId`, `videoUrlDisplay`
and `localStorage` keep their prior values (so no new session becomes
usable), and the only history effects are the removal of any message
whose content equals the transient processing notice and one appended
error message. -/
theorem claim6_failed_ingest_frame
    (s : AppState) (ls : LocalStorage) (outcome : FetchOutcome)
    (hu : s.youtubeUrl ≠ "") (hk : s.apiKey ≠ "")
    (hfail : fetchFailed outcome = true) :
    (processVideo s ls outcome).1.sessionId = s.sessionId ∧
    (processVideo s ls outcome).1.videoUrlDisplay = s.videoUrlDisplay ∧
    (processVideo s ls outcome).2.1 = ls ∧
    (processVideo s ls outcome).1.chatHistory =
      (s.chatHistory.filter (fun t => !(t.content == some processingNotice))) ++
        [{ role := "error",
           content := some ("Error processing video: " ++
             ingestFailMessage outcome) }] := by
  have h := processVideo_fail s ls outcome hu hk hfail
  exact ⟨by rw [h], by rw [h], by rw [h], by rw [h]⟩

/-- C6 witness: a concrete failed ingest leaves session state unchanged
and appends only the error turn. -/
theorem claim6_witness :
    (processVideo
        { youtubeUrl := "u2", apiKey := "k2", question := "",
          chatHistory := [], sessionId := none, videoUrlDisplay := none } []
        (FetchOutcome.thrown "down")).1.sessionId = none ∧
    (processVideo
        { youtubeUrl := "u2", apiKey := "k2", question := "",
          chatHistory := [], sessionId := none, videoUrlDisplay := none } []
        (FetchOutcome.thrown "down")).1.videoUrlDisplay = none ∧
    (processVideo
        { youtubeUrl := "u2", apiKey := "k2", question := "",
          chatHistory := [], sessionId := none, videoUrlDisplay := none } []
        (FetchOutcome.thrown "down")).2.1 = ([] : LocalStorage) ∧
    (processVideo
        { youtubeUrl := "u2", apiKey := "k2", question := "",
          chatHistory := [], sessionId := none, videoUrlDisplay := none } []
        (FetchOutcome.thrown "down")).1.chatHistory =
      (([] : List Turn).filter (fun t => !(t.content == some processingNotice))) ++
        [{ role := "error",
           content := some ("Error processing video: " ++
             ingestFailMessage (FetchOutcome.thrown "down")) }] :=
  claim6_failed_ingest_frame _ [] _ (by decide) (by decide) rfl

/-- C7: whatever the backend outcome (and also when the backend call is
skipped because `sessionId` is falsy), a confirmed `clearChat` ends with
`sessionId = none`, the video display reset, `localStorage` cleared, and
a history holding no conversation turns — at most one `info`/`error`
status notice. -/
theorem claim7_clearChat_resets
    (s : AppState) (ls : LocalStorage) (outcome : FetchOutcome) :
    (clearChat s ls true outcome).1.sessionId = none ∧
    (clearChat s ls true outcome).1.videoUrlDisplay = none ∧
    (clearChat s ls true outcome).2.1 = lsClear ∧
    ((clearChat s ls true outcome).1.chatHistory = [] ∨
      ∃ t : Turn, (clearChat s ls true outcome).1.chatHistory = [t] ∧
        (t.role = "info" ∨ t.role = "error")) := by
  by_cases ht : jsTruthy s.sessionId
  · cases outcome with
    | thrown m =>
        refine ⟨?_, ?_, ?_, Or.inr
          ⟨{ role := "error",
             content := some ("Failed to clear backend session: " ++ m) },
           ?_, by simp⟩⟩ <;> simp [clearChat, ht]
    | success r =>
        by_cases hr : r.ok
        · refine ⟨?_, ?_, ?_, Or.inr
            ⟨{ role := "info", content := some clearedNotice }, ?_, by simp⟩⟩ <;>
            simp [clearChat, ht, hr]
        · refine ⟨?_, ?_, ?_, Or.inr
            ⟨{ role := "error",
               content := some ("Failed to clear backend session: " ++
                 jsOr r.detail "Failed to clear session on backend") },
             ?_, by simp⟩⟩ <;> simp [clearChat, ht, hr]
  · refine ⟨?_, ?_, ?_, Or.inl ?_⟩ <;> simp [clearChat, ht]

/-- `find?` by key over the update map of `lsSet`, at a different key. -/
lemma find?_fst_map_update (key k v : String) (hkk : (k == key) = false) :
    ∀ ls : LocalStorage,
      (ls.map (fun p => if p.1 == k then (k, v) else p)).find?
          (fun p => p.1 == key) =
        ls.find? (fun p => p.1 == key) := by
  intro ls
  induction ls with
  | nil => rfl
  | cons a tl ih =>
      by_cases ha : a.1 = k
      · have h2 : (a.1 == key) = false := by rw [ha]; exact hkk
        simp [List.find?_cons, ha, hkk, h2, -List.find?_map]
        simpa using ih
      · cases hak : (a.1 == key) with
        | false =>
            simp [List.find?_cons, ha, hak, -List.find?_map]
            simpa using ih
        | true => simp [List.find?_cons, ha, hak, -List.find?_map]

/-- `find?` by key over the filter of `lsRemove`, at a different key. -/
lemma find?_fst_filter_ne (key k : String) (hne : key ≠ k) :
    ∀ ls : LocalStorage,
      (ls.filter (fun p => !(p.1 == k))).find? (fun p => p.1 == key) =
        ls.find? (fun p => p.1 == key) := by
  intro ls
  induction ls with
  | nil => rfl
  | cons a tl ih =>
      have hkk : (k == key) = false := by simp [Ne.symm hne]
      by_cases ha : a.1 = k
      · have h2 : (a.1 == key) = false := by rw [ha]; exact hkk
        simp [List.filter_cons, List.find?_cons, ha, h2, hkk, -List.find?_filter]
        simpa using ih
      · cases hak : (a.1 == key) with
        | false =>
            simp [List.filter_cons, List.find?_cons, ha, hak, -List.find?_filter]
            simpa using ih
        | true => simp [List.filter_cons, List.find?_cons, ha, hak, -List.find?_filter]

/-- `lsGet` at a key other than the one written by `lsSet`. -/
lemma lsGet_lsSet_ne (key k v : String) (ls : LocalStorage) (hne : key ≠ k) :
    lsGet key (lsSet k v ls) = lsGet key ls := by
  have hkk : (k == key) = false := by simp [Ne.symm hne]
  unfold lsSet lsGet
  split
  · rw [List.find?_append]
    simp [List.find?, hkk]
  · rw [find?_fst_map_update key k v hkk ls]

/-- `lsGet` at a key other than the one removed by `lsRemove`. -/
lemma lsGet_lsRemove_ne (key k : String) (ls : LocalStorage) (hne : key ≠ k) :
    lsGet key (lsRemove k ls) = lsGet key ls := by
  unfold lsRemove lsGet
  rw [find?_fst_filter_ne key k hne ls]

/-- The persistence effect leaves every key other than `chatHistory`,
`sessionId` and `videoUrlDisplay` untouched. -/
lemma lsGet_persistEffect_ne (s : AppState) (ls : LocalStorage) (key : String)
    (h1 : key ≠ "chatHistory") (h2 : key ≠ "sessionId")
    (h3 : key ≠ "videoUrlDisplay") :
    lsGet key (persistEffect s ls) = lsGet key ls := by
  unfold persistEffect
  by_cases hs : jsTruthy s.sessionId <;> by_cases hv : jsTruthy s.videoUrlDisplay <;>
    simp [hs, hv, lsGet_lsSet_ne _ _ _ _ h1, lsGet_lsSet_ne _ _ _ _ h2,
      lsGet_lsSet_ne _ _ _ _ h3, lsGet_lsRemove_ne _ _ _ h2,
      lsGet_lsRemove_ne _ _ _ h3]

/-- C8: the API key is never persisted and never leaves in any request
other than the ingest body — the persistence effect is insensitive to
`apiKey` and writes no key beyond `chatHistory`/`sessionId`/
`videoUrlDisplay`; chat request bodies carry exactly
`question`/`session_id`, clear bodies exactly `session_id`, and the one
place the key travels is the `api_key` field of the
`/process_video/` body. -/
theorem claim8_api_key_never_persisted :
    (∀ (s : AppState) (k : String) (ls : LocalStorage),
        persistEffect { s with apiKey := k } ls = persistEffect s ls) ∧
    (∀ (s : AppState) (ls : LocalStorage) (key : String),
        key ≠ "chatHistory" → key ≠ "sessionId" → key ≠ "videoUrlDisplay" →
        lsGet key (persistEffect s ls) = lsGet key ls) ∧
    (∀ (s : AppState) (outcome : FetchOutcome),
        ∀ r ∈ (sendMessage s outcome).2,
          r.body.map Prod.fst = ["question", "session_id"]) ∧
    (∀ (s : AppState) (ls : LocalStorage) (c : Bool) (outcome : FetchOutcome),
        ∀ r ∈ (clearChat s ls c outcome).2.2,
          r.body.map Prod.fst = ["session_id"]) ∧
    (∀ (s : AppState) (ls : LocalStorage) (outcome : FetchOutcome),
        ∀ r ∈ (processVideo s ls outcome).2.2,
          r.body.map Prod.fst = ["youtube_url", "api_key"]) := by
  refine ⟨fun s k ls => rfl, lsGet_persistEffect_ne, ?_, ?_, ?_⟩
  · intro s outcome r hr
    by_cases h1 : jsTrim s.question == ""
    · simp [sendMessage, h1] at hr
    · by_cases h2 : jsTruthy s.sessionId
      · cases outcome with
        | thrown m =>
            simp [sendMessage, h1, h2] at hr
            subst hr; rfl
        | success resp =>
            by_cases hok : resp.ok <;>
              · simp [sendMessage, h1, h2, hok] at hr
                subst hr; rfl
      · simp [sendMessage, h1, h2] at hr
  · intro s ls c outcome r hr
    by_cases hc : c
    · by_cases h2 : jsTruthy s.sessionId
      · cases outcome with
        | thrown m =>
            simp [clearChat, hc, h2] at hr
            subst hr; rfl
        | success resp =>
            by_cases hok : resp.ok <;>
              · simp [clearChat, hc, h2, hok] at hr
                subst hr; rfl
      · simp [clearChat, hc, h2] at hr
    · simp [clearChat, hc] at hr
  · intro s ls outcome r hr
    by_cases h1 : s.youtubeUrl == ""
    · simp [processVideo, h1] at hr
    · by_cases h2 : s.apiKey == ""
      · simp [processVideo, h1, h2] at hr
      · cases outcome with
        | thrown m =>
            simp [processVideo, h1, h2] at hr
            subst hr; rfl
        | success resp =>
            by_cases hok : resp.ok <;>
              · simp [processVideo, h1, h2, hok] at hr
                subst hr; rfl

/-- C8 witness: at a concrete state the persistence effect leaves the
`apiKey` key of `localStorage` untouched, and a concrete chat request
body carries exactly `question` and `session_id`. -/
theorem claim8_witness :
    lsGet "apiKey" (persistEffect
        { youtubeUrl := "u", apiKey := "SECRET", question := "",
          chatHistory := [], sessionId := some "s", videoUrlDisplay := some "v" }
        [("apiKey", "old")]) =
      lsGet "apiKey" [("apiKey", "old")] ∧
    ({ method := "POST", url := API_BASE_URL ++ "/chat/",
       body := [("question", "hello?"), ("session_id", "sess")] } :
        Request).body.map Prod.fst = ["question", "session_id"] :=
  ⟨claim8_api_key_never_persisted.2.1 _ _ "apiKey" (by decide) (by decide)
      (by decide),
   claim8_api_key_never_persisted.2.2.1
      { youtubeUrl := "", apiKey := "", question := "hello?", chatHistory := [],
        sessionId := some "sess", videoUrlDisplay := none }
      (FetchOutcome.success { ok := true, answer := some "fine" }) _ (by decide)⟩

/-- A scan whose matcher fires on no suffix of the input is the
identity. -/
lemma scanAux_id (f : List Char → Option (List Char × List Char)) :
    ∀ (fuel : Nat) (l : List Char), (∀ t, t <:+ l → f t = none) →
      scanAux f fuel l = l := by
  intro fuel
  induction fuel with
  | zero => intro l _; cases l <;> rfl
  | succ n ih =>
      intro l h
      cases l with
      | nil => rfl
      | cons c cs =>
          have hc : f (c :: cs) = none := h _ (List.suffix_refl _)
          have hcs : ∀ t, t <:+ cs → f t = none := fun t ht =>
            h t (ht.trans (List.suffix_cons c cs))
          simp [scanAux, hc, ih cs hcs]

/-- A pass whose matcher fires on no suffix of the input is the
identity. -/
lemma runPass_id (f : List Char → Option (List Char × List Char))
    (l : List Char) (h : ∀ t, t <:+ l → f t = none) : runPass f l = l :=
  scanAux_id f l.length l h

lemma suffix_head_mem {c : Char} {ts l : List Char} (ht : c :: ts <:+ l) :
    c ∈ l :=
  ht.subset (List.mem_cons_self c ts)

lemma mH1_none (c : Char) (ts : List Char) (hc : c ≠ '\n') :
    mH1 (c :: ts) = none := by
  unfold mH1; split <;> simp_all

lemma mH2_none (c : Char) (ts : List Char) (hc : c ≠ '\n') :
    mH2 (c :: ts) = none := by
  unfold mH2; split <;> simp_all

lemma mH3_none (c : Char) (ts : List Char) (hc : c ≠ '\n') :
    mH3 (c :: ts) = none := by
  unfold mH3; split <;> simp_all

lemma mNumbered_none (c : Char) (ts : List Char) (hc : c ≠ '\n') :
    mNumbered (c :: ts) = none := by
  unfold mNumbered; split <;> simp_all

lemma mStarBullet_none (c : Char) (ts : List Char) (hc : c ≠ '\n') :
    mStarBullet (c :: ts) = none := by
  unfold mStarBullet; split <;> simp_all

lemma mDashBullet_none (c : Char) (ts : List Char) (hc : c ≠ '\n') :
    mDashBullet (c :: ts) = none := by
  unfold mDashBullet; split <;> simp_all

lemma mDoubleNewline_none (c : Char) (ts : List Char) (hc : c ≠ '\n') :
    mDoubleNewline (c :: ts) = none := by
  unfold mDoubleNewline; split <;> simp_all

lemma mNewline_none (c : Char) (ts : List Char) (hc : c ≠ '\n') :
    mNewline (c :: ts) = none := by
  unfold mNewline; split <;> simp_all

lemma mBold_none (c : Char) (ts : List Char) (hc : c ≠ '*') :
    mBold (c :: ts) = none := by
  unfold mBold; split <;> simp_all

lemma mItalic_none (c : Char) (ts : List Char) (hc : c ≠ '*') :
    mItalic (c :: ts) = none := by
  unfold mItalic; split <;> simp_all

lemma mCode_none (c : Char) (ts : List Char) (hc : c ≠ backtickChar) :
    mCode (c :: ts) = none := by
  simp [mCode, hc]

/-- When the link regex matches nowhere, the link matcher is `none` on
every suffix. -/
lemma mLink_none_of_noLink :
    ∀ (l t : List Char), containsLink l = false → t <:+ l → mLink t = none := by
  intro l
  induction l with
  | nil =>
      intro t _ ht
      rw [List.suffix_nil.mp ht]
      rfl
  | cons c cs ih =>
      intro t hl ht
      have hl' := hl
      simp only [containsLink, Bool.or_eq_false_iff] at hl'
      rcases List.suffix_cons_iff.mp ht with rfl | ht'
      · exact Option.not_isSome_iff_eq_none.mp (by simp [hl'.1])
      · exact ih t hl'.2 ht'

lemma runPass_newline_pass_id {l : List Char} (h : '\n' ∉ l)
    (f : List Char → Option (List Char × List Char)) (hnil : f [] = none)
    (hcons : ∀ c ts, c ≠ '\n' → f (c :: ts) = none) : runPass f l = l := by
  apply runPass_id
  intro t ht
  cases t with
  | nil => exact hnil
  | cons c ts =>
      exact hcons c ts (fun hc => h (hc ▸ suffix_head_mem ht))

lemma runPass_star_pass_id {l : List Char} (h : '*' ∉ l)
    (f : List Char → Option (List Char × List Char)) (hnil : f [] = none)
    (hcons : ∀ c ts, c ≠ '*' → f (c :: ts) = none) : runPass f l = l := by
  apply runPass_id
  intro t ht
  cases t with
  | nil => exact hnil
  | cons c ts =>
      exact hcons c ts (fun hc => h (hc ▸ suffix_head_mem ht))

/-- C9: `formatBotMessage` performs no HTML escaping: any string with no
newline, no `*`, no backtick and no occurrence of the link pattern passes
through all twelve replacement passes unchanged, so literal HTML markup in
a message reaches the `dangerouslySetInnerHTML` sink (App.js line 438)
verbatim. -/
theorem claim9_formatBotMessage_identity (s : String)
    (h1 : '\n' ∉ s.data) (h2 : '*' ∉ s.data) (h3 : backtickChar ∉ s.data)
    (h4 : containsLink s.data = false) :
    formatBotMessage s = s := by
  unfold formatBotMessage
  rw [runPass_newline_pass_id h1 mH1 rfl mH1_none,
    runPass_newline_pass_id h1 mH2 rfl mH2_none,
    runPass_newline_pass_id h1 mH3 rfl mH3_none,
    runPass_newline_pass_id h1 mNumbered rfl mNumbered_none,
    runPass_newline_pass_id h1 mStarBullet rfl mStarBullet_none,
    runPass_newline_pass_id h1 mDashBullet rfl mDashBullet_none,
    runPass_star_pass_id h2 mBold rfl mBold_none,
    runPass_star_pass_id h2 mItalic rfl mItalic_none,
    runPass_id mCode s.data (fun t ht => ?_),
    runPass_id mLink s.data (mLink_none_of_noLink s.data · h4),
    runPass_newline_pass_id h1 mDoubleNewline rfl mDoubleNewline_none,
    runPass_newline_pass_id h1 mNewline rfl mNewline_none]
  · cases t with
    | nil => rfl
    | cons c ts =>
        exact mCode_none c ts (fun hc => h3 (hc ▸ suffix_head_mem ht))

/-- C9 witness: a literal HTML payload (no markdown trigger characters)
is delivered to the HTML sink completely unchanged. -/
theorem claim9_witness :
    formatBotMessage "<img src=x onerror=alert(1)>" =
      "<img src=x onerror=alert(1)>" :=
  claim9_formatBotMessage_identity _ (by decide) (by decide) (by decide)
    (by decide)

/-- C10: `getYouTubeVideoId` is a total function (the `URL` failure of the
source's `try`/`catch` is the `none` case of `parseURL`, never an
exception): on the two exact hostnames it returns the `v` query parameter
when `'/watch'` occurs in the path, the split segment after `'/shorts/'`
for shorts paths, and `none` otherwise; every other hostname — including
`youtu.be` and `m.youtube.com` — and every unparsable input yields
`none`. -/
theorem claim10_getYouTubeVideoId_cases :
    (∀ url, parseURL url = none → getYouTubeVideoId url = none) ∧
    (∀ url u, parseURL url = some u →
        (u.hostname = "www.youtube.com" ∨ u.hostname = "youtube.com") →
        strIncludes u.pathname "/watch" = true →
        getYouTubeVideoId url = searchParamsGet u.search "v") ∧
    (∀ url u, parseURL url = some u →
        (u.hostname = "www.youtube.com" ∨ u.hostname = "youtube.com") →
        strIncludes u.pathname "/watch" = false →
        strIncludes u.pathname "/shorts/" = true →
        getYouTubeVideoId url = some ((jsSplit u.pathname "/shorts/").getD 1 "")) ∧
    (∀ url u, parseURL url = some u →
        (u.hostname = "www.youtube.com" ∨ u.hostname = "youtube.com") →
        strIncludes u.pathname "/watch" = false →
        strIncludes u.pathname "/shorts/" = false →
        getYouTubeVideoId url = none) ∧
    (∀ url u, parseURL url = some u →
        u.hostname ≠ "www.youtube.com" → u.hostname ≠ "youtube.com" →
        getYouTubeVideoId url = none) ∧
    getYouTubeVideoId "https://www.youtube.com/watch?v=dQw4w9WgXcQ" =
      some "dQw4w9WgXcQ" ∧
    getYouTubeVideoId "https://youtube.com/shorts/abc123" = some "abc123" ∧
    getYouTubeVideoId "https://youtu.be/dQw4w9WgXcQ" = none ∧
    getYouTubeVideoId "https://m.youtube.com/watch?v=dQw4w9WgXcQ" = none ∧
    getYouTubeVideoId "not a url" = none := by
  refine ⟨?_, ?_, ?_, ?_, ?_, by decide, by decide, by decide, by decide,
    by decide⟩
  · intro url hp
    simp [getYouTubeVideoId, hp]
  · intro url u hp hh hw
    have hb : (u.hostname == "www.youtube.com" || u.hostname == "youtube.com") = true := by
      rcases hh with h | h <;> simp [h]
    simp [getYouTubeVideoId, hp, hb, hw]
  · intro url u hp hh hw hs
    have hb : (u.hostname == "www.youtube.com" || u.hostname == "youtube.com") = true := by
      rcases hh with h | h <;> simp [h]
    simp [getYouTubeVideoId, hp, hb, hw, hs]
  · intro url u hp hh hw hs
    have hb : (u.hostname == "www.youtube.com" || u.hostname == "youtube.com") = true := by
      rcases hh with h | h <;> simp [h]
    simp [getYouTubeVideoId, hp, hb, hw, hs]
  · intro url u hp h1 h2
    have hb : (u.hostname == "www.youtube.com" || u.hostname == "youtube.com") = false := by
      simp [h1, h2]
    simp [getYouTubeVideoId, hp, hb]

/-- C10 witness: the empty string is unparsable and yields `none`, and a
watch URL with userinfo, port and fragment resolves through the parsed
components to its `v` parameter. -/
theorem claim10_witness :
    getYouTubeVideoId "" = none ∧
    getYouTubeVideoId "https://user@www.youtube.com:443/watch?v=zz#frag" =
      searchParamsGet "v=zz" "v" :=
  ⟨claim10_getYouTubeVideoId_cases.1 "" (by decide),
   claim10_getYouTubeVideoId_cases.2.1 _
      { hostname := "www.youtube.com", pathname := "/watch", search := "v=zz" }
      (by decide) (Or.inl rfl) (by decide)⟩
